import Mathlib

/-!
Verification development for the AI-Compound-Analyzer repository.

The repository ships a React front end (SMILES validator, input heuristics,
API client, formula formatting) whose functions are embedded below directly
from the TypeScript sources.  The Python analysis backend is not part of the
repository sources; where a property depends on it, the relevant behaviour is
modelled from the specification and the definition's doc comment says so.

Strings from the sources are modelled as `List Char`; the JavaScript regexes
involved (`/^[A-Za-z0-9@+\-\[\]()=#:/.\\%]+$/`, `/[CNOSPFClBrI]/`, `/\d/`)
match ASCII character classes, reproduced here as decidable character
predicates.
-/

/-- Whitespace as stripped by JavaScript `String.prototype.trim` (modelled on
the ASCII whitespace characters; the inputs treated here contain no exotic
Unicode whitespace). -/
def isSpaceChar (c : Char) : Bool :=
  c = ' ' || c = '\t' || c = '\n' || c = '\r' || c = '\x0b' || c = '\x0c'

/-- The accepted SMILES alphabet, from the regex character class
`[A-Za-z0-9@+\-\[\]()=#:/.\\%]` used both by `validateSMILES`
(src/unnamed/part_001) and by `isSMILESLike` (CompoundInput.tsx). -/
def validSmilesChar (c : Char) : Bool :=
  c.isAlpha || c.isDigit ||
    c = '@' || c = '+' || c = '-' || c = '[' || c = ']' || c = '(' || c = ')' ||
    c = '=' || c = '#' || c = ':' || c = '/' || c = '.' || c = '\\' || c = '%'

/-- The characters of the regex class `[CNOSPFClBrI]` from the
`hasValidAtoms` check of `validateSMILES`: as a character class it is the set
of its letters, so the lower-case `l` and `r` of `Cl` / `Br` are members. -/
def atomChars : List Char := ['C', 'N', 'O', 'S', 'P', 'F', 'l', 'B', 'r', 'I']

/-- JavaScript `String.prototype.trim`: drop leading and trailing whitespace. -/
def trimList (s : List Char) : List Char :=
  (((s.dropWhile isSpaceChar).reverse).dropWhile isSpaceChar).reverse

/-- JavaScript `String.prototype.includes pat`: some contiguous substring of
`s` equals `pat`. -/
def hasSubstring (pat : List Char) : List Char → Bool
  | [] => pat.isEmpty
  | c :: rest => pat.isPrefixOf (c :: rest) || hasSubstring pat rest

/-- The record returned by `validateSMILES` in src/unnamed/part_001
(`SMILESValidator`): a validity flag and the accumulated errors, warnings and
suggestions. -/
structure ValidationResult where
  isValid : Bool
  errors : List String
  warnings : List String
  suggestions : List String
deriving Repr, DecidableEq

/-- The errors pushed by `validateSMILES` on the trimmed input, in push order:
unbalanced parentheses, unbalanced square brackets, no recognizable atoms,
invalid characters, double dots, double dashes.  The invalid-character regex
`/^[A-Za-z0-9@+\-\[\]()=#:/.\\%]+$/` accepts a non-empty all-valid string;
this list is only used on the non-empty trimmed input, where its test is
`t.all validSmilesChar`. -/
def mainErrors (t : List Char) : List String :=
  (if t.count '(' ≠ t.count ')' then ["Unbalanced parentheses"] else [])
    ++ (if t.count '[' ≠ t.count ']' then ["Unbalanced square brackets"] else [])
    ++ (if t.any (fun c => atomChars.contains c) then []
        else ["No recognizable atom symbols found"])
    ++ (if t.all validSmilesChar then [] else ["Contains invalid characters"])
    ++ (if hasSubstring ['.', '.'] t then ["Double dots are not valid in SMILES"] else [])
    ++ (if hasSubstring ['-', '-'] t then ["Double dashes are not valid in SMILES"] else [])

/-- The warnings pushed by `validateSMILES`, in push order. -/
def mainWarnings (t : List Char) : List String :=
  (if 200 < t.length then ["Very long SMILES string - may be complex to visualize"] else [])
    ++ (if 50 < t.count 'C' then ["Large molecule - 3D rendering may be slow"] else [])

/-- The suggestions pushed by `validateSMILES`, each alongside its error, in
push order. -/
def mainSuggestions (t : List Char) : List String :=
  (if t.count '(' ≠ t.count ')' then
      ["Check that all opening parentheses have matching closing ones"] else [])
    ++ (if t.count '[' ≠ t.count ']' then
        ["Check that all opening brackets have matching closing ones"] else [])
    ++ (if t.any (fun c => atomChars.contains c) then []
        else ["Include common atoms like C, N, O, S, P, F, Cl, Br, I"])
    ++ (if t.all validSmilesChar then []
        else ["Use only valid SMILES characters: letters, numbers, @, +, -, [], (), =, #, :, /, \\, %"])
    ++ (if hasSubstring ['.', '.'] t then ["Remove consecutive dots"] else [])
    ++ (if hasSubstring ['-', '-'] t then ["Use single dash for bonds"] else [])

/-- `validateSMILES` from src/unnamed/part_001 (`SMILESValidator`): an empty
or whitespace-only input returns early with the single error
`SMILES string is empty`; otherwise every check runs on the trimmed input and
the result is valid exactly when no error was pushed. -/
def validateSMILES (s : List Char) : ValidationResult :=
  if (trimList s).length = 0 then
    ⟨false, ["SMILES string is empty"], [], []⟩
  else
    ⟨(mainErrors (trimList s)).isEmpty, mainErrors (trimList s),
      mainWarnings (trimList s), mainSuggestions (trimList s)⟩

/-- `isSMILESLike` from src/src/components/CompoundInput.tsx: the regex
`/^[A-Za-z0-9@+\-\[\]()=#:/.\\%]+$/` is tested against `text.trim()` (a
non-empty all-valid string), while the remaining three tests —
`text.includes('C')`, `text.length > 3`, `!text.includes(' ')` — run on the
raw text. -/
def isSMILESLike (text : List Char) : Bool :=
  (decide (trimList text ≠ []) && (trimList text).all validSmilesChar)
    && text.contains 'C'
    && decide (text.length > 3)
    && !(text.contains ' ')

/-- The heuristic as the specification words it (all four conditions applied
to the whitespace-stripped text): contains only valid SMILES alphabet
characters, contains a carbon symbol, has no embedded spaces, and has
length > 3.  Stated from the spec for refinement comparison against
`isSMILESLike`. -/
def isSMILESLikeSpec (text : List Char) : Bool :=
  (trimList text).all validSmilesChar
    && (trimList text).contains 'C'
    && !((trimList text).contains ' ')
    && decide ((trimList text).length > 3)

/-- Modelled from the spec: the Input Resolver's name-lookup branch (§4.1) —
the static name-to-SMILES table lives in the Python backend, which is not
among the repository sources, so the table is abstracted as a parameter; a
missed lookup fails with `UnknownCompoundError`. -/
def nameResolve (lookup : List Char → Option (List Char)) (text : List Char) :
    Except String (List Char) :=
  match lookup text with
  | some smiles => Except.ok smiles
  | none => Except.error "UnknownCompoundError"

/-- Modelled from the spec: the Input Resolver (§4.1) — text matching the
SMILES-token heuristic is treated as literal SMILES, anything else goes to
the name lookup table. The heuristic itself is the repository's
`isSMILESLike`. -/
def resolveInput (lookup : List Char → Option (List Char)) (text : List Char) :
    Except String (List Char) :=
  if isSMILESLike text then Except.ok (trimList text) else nameResolve lookup text

/-- The regex class `\d` of `formatMolecularFormula`: the ten ASCII digits. -/
def isFormulaDigit (c : Char) : Bool :=
  c ∈ ['0', '1', '2', '3', '4', '5', '6', '7', '8', '9']

/-- The `subscriptMap` lookup of `formatMolecularFormula`
(src/src/components/CompoundInput.tsx constants and src/unnamed/part_000):
`subscriptMap[digit] || digit` maps each ASCII digit to its Unicode subscript
and leaves any other character unchanged. -/
def subscriptDigit (c : Char) : Char :=
  match c with
  | '0' => '₀'
  | '1' => '₁'
  | '2' => '₂'
  | '3' => '₃'
  | '4' => '₄'
  | '5' => '₅'
  | '6' => '₆'
  | '7' => '₇'
  | '8' => '₈'
  | '9' => '₉'
  | other => other

/-- `formatMolecularFormula`: `formula.replace(/(\d+)/g, m => m.split('')
.map(d => subscriptMap[d] || d).join(''))` replaces every maximal run of
ASCII digits by the image of each of its characters under `subscriptMap` and
leaves the characters outside the runs unchanged; character by character that
is exactly this recursion. -/
def formatMolecularFormula : List Char → List Char
  | [] => []
  | c :: rest =>
    if isFormulaDigit c then subscriptDigit c :: formatMolecularFormula rest
    else c :: formatMolecularFormula rest

/-- The ten numeric descriptors of the `MolecularProperties` interface
(src/src/components/CompoundInput.tsx constants).  The TypeScript `number`
fields are modelled as exact rationals. -/
structure MolecularProperties where
  molecularWeight : ℚ
  logP : ℚ
  hbondDonors : ℚ
  hbondAcceptors : ℚ
  rotatablebonds : ℚ
  polarSurfaceArea : ℚ
  heavyAtomCount : ℚ
  ringCount : ℚ
  aromaticRings : ℚ
  heteroAtoms : ℚ
deriving Repr, DecidableEq

/-- The `drugLikeness` object of the `CompoundAnalysis` interface. -/
structure DrugLikenessAssessment where
  lipinskiViolations : ℕ
  veberViolations : ℕ
  leadLikeness : Bool
  drugLikeness : Bool
deriving Repr, DecidableEq

/-- The `admet` object of the `CompoundAnalysis` interface. -/
structure ADMETPrediction where
  bloodBrainBarrier : String
  humanIntestinalAbsorption : String
  cyp450Inhibition : List String
  toxicity : String
deriving Repr, DecidableEq

/-- The `CompoundAnalysis` record of src/src/components/CompoundInput.tsx
constants (the `iupacName` and `functionalGroups` optional fields are not
needed by any claim and are omitted from the embedding). -/
structure CompoundAnalysisRecord where
  smiles : String
  name : String
  formula : String
  properties : MolecularProperties
  drugLikeness : DrugLikenessAssessment
  admet : ADMETPrediction
  structure3D : String
deriving Repr, DecidableEq

/-- The `AnalysisResponse` interface: `{ success, data?, error? }`. -/
structure AnalysisResponse where
  success : Bool
  data : Option CompoundAnalysisRecord
  error : Option String
deriving Repr, DecidableEq

/-- Modelled from the spec: the Rule Evaluator's Lipinski count (§4.4) — the
evaluator runs in the Python backend, which is not among the repository
sources.  One violation for each of: MW > 500, logP > 5, H-bond donors > 5,
H-bond acceptors > 10. -/
def lipinskiViolations (p : MolecularProperties) : ℕ :=
  (if p.molecularWeight > 500 then 1 else 0)
    + (if p.logP > 5 then 1 else 0)
    + (if p.hbondDonors > 5 then 1 else 0)
    + (if p.hbondAcceptors > 10 then 1 else 0)

/-- Modelled from the spec: the Rule Evaluator's Veber count (§4.4):
rotatable bonds > 10; polar surface area > 140. -/
def veberViolations (p : MolecularProperties) : ℕ :=
  (if p.rotatablebonds > 10 then 1 else 0)
    + (if p.polarSurfaceArea > 140 then 1 else 0)

/-- Modelled from the spec: lead-likeness (§4.4): MW ≤ 450, −1 ≤ logP ≤ 4.5,
rotatable bonds ≤ 7. -/
def leadLikeness (p : MolecularProperties) : Bool :=
  decide (p.molecularWeight ≤ 450 ∧ -1 ≤ p.logP ∧ p.logP ≤ 9 / 2 ∧ p.rotatablebonds ≤ 7)

/-- Modelled from the spec: the Rule Evaluator (§4.4) assembling the
`drugLikeness` object; `drugLikeness` is true when the Lipinski violation
count is at most 1. -/
def evaluateRules (p : MolecularProperties) : DrugLikenessAssessment :=
  ⟨lipinskiViolations p, veberViolations p, leadLikeness p,
    decide (lipinskiViolations p ≤ 1)⟩

/-- Modelled from the spec: the ADMET predictor's blood-brain-barrier rule
(§4.5), computed by the Python backend, which is not among the repository
sources: `Likely` when MW < 450 and polar surface area < 90 and
−0.5 ≤ logP ≤ 4.5; `Unlikely` otherwise. -/
def bloodBrainBarrier (p : MolecularProperties) : String :=
  if p.molecularWeight < 450 ∧ p.polarSurfaceArea < 90 ∧
      -(1 / 2) ≤ p.logP ∧ p.logP ≤ 9 / 2 then "Likely" else "Unlikely"

/-- Modelled from the spec: steps 1 and 2 of the Molecular Graph Parser's
structural validation (§4.2) — the parser is part of the Python backend,
which is not among the repository sources.  Returns the first structural
`SyntaxError`, or `none`; the later steps of the pipeline are abstracted by
the `pipeline` parameter of `runEngine`. -/
def structuralCheck (s : List Char) : Option String :=
  if s.count '(' ≠ s.count ')' then some "SyntaxError: Unbalanced parentheses"
  else if s.count '[' ≠ s.count ']' then some "SyntaxError: Unbalanced square brackets"
  else if ¬ (s.all validSmilesChar) then some "SyntaxError: Invalid characters"
  else none

/-- A transport-agnostic response record of the engine: `{ success, data?,
error? }`, with the data payload left polymorphic. -/
structure EngineResponse (α : Type) where
  success : Bool
  data : Option α
  error : Option String
deriving Repr, DecidableEq

/-- Modelled from the spec: the propagation policy (§7) — a structural parse
error aborts the pipeline immediately and is surfaced as a failure response
carrying no data; the rest of the pipeline (Python backend, not among the
repository sources) is abstracted as a parameter. -/
def runEngine {α : Type} (pipeline : List Char → Except String α)
    (s : List Char) : EngineResponse α :=
  match structuralCheck s with
  | some e => ⟨false, none, some e⟩
  | none =>
    match pipeline s with
    | Except.ok a => ⟨true, some a, none⟩
    | Except.error e => ⟨false, none, some e⟩

/-- Modelled from the spec: the Conformer Generator's retry policy (§4.6) —
one retry from a different seed after a failed minimization; two failures
raise `ConformerGenerationError`.  The backend is not among the repository
sources, so the attempts are abstracted as a function of the attempt index. -/
def generateConformer (attempt : ℕ → Option String) : Except String String :=
  match attempt 0 with
  | some block => Except.ok block
  | none =>
    match attempt 1 with
    | some block => Except.ok block
    | none => Except.error "ConformerGenerationError"

/-- The pre-conformer outputs of the pipeline, as assembled before the 3D
step. -/
structure AnalysisCore where
  smiles : String
  name : String
  formula : String
  properties : MolecularProperties
  drugLikeness : DrugLikenessAssessment
  admet : ADMETPrediction
deriving Repr, DecidableEq

/-- Modelled from the spec: the Analysis Assembler's recovery policy (§4.6,
§7) — a conformer-generation failure is recovered locally: the record is
still returned with `success` true and an empty `structure3D` field. -/
def assembleAnalysis (core : AnalysisCore) (conformer : Except String String) :
    EngineResponse CompoundAnalysisRecord :=
  match conformer with
  | Except.ok block =>
    ⟨true, some ⟨core.smiles, core.name, core.formula, core.properties,
      core.drugLikeness, core.admet, block⟩, none⟩
  | Except.error _ =>
    ⟨true, some ⟨core.smiles, core.name, core.formula, core.properties,
      core.drugLikeness, core.admet, ""⟩, none⟩

/-- The possible outcomes of the axios GET in `healthCheck`
(src/src/services/api.ts): the server responds with some HTTP status, or the
request times out, or the connection fails. -/
inductive HealthOutcome where
  | responded (status : ℕ)
  | timeout
  | connectionError
deriving Repr, DecidableEq

/-- `healthCheck` from src/src/services/api.ts: axios resolves only for 2xx
statuses (its default `validateStatus`) and the method returns
`response.status === 200`; every rejection path is caught and returns
`false`, so the method is a total boolean and never throws. -/
def healthCheck (o : HealthOutcome) : Bool :=
  match o with
  | HealthOutcome.responded status =>
    if 200 ≤ status ∧ status < 300 then status == 200 else false
  | HealthOutcome.timeout => false
  | HealthOutcome.connectionError => false

/-- The outcomes of the axios POST in `analyzeCompound`
(src/src/services/api.ts): a resolved 2xx response carrying a parsed body, or
one of the rejection paths the catch block distinguishes — an HTTP error
response (status plus the optional `error` field of its body), a refused
connection, an aborted/timed-out request, or any other error. -/
inductive PostOutcome where
  | ok (body : AnalysisResponse)
  | httpError (status : ℕ) (responseError : Option String)
  | connRefused
  | aborted
  | otherError
deriving Repr, DecidableEq

/-- JavaScript `x || default` on an optional string: the empty string is
falsy, so it also falls back to the default. -/
def jsOrDefault (x : Option String) (d : String) : String :=
  match x with
  | some s => if s = "" then d else s
  | none => d

/-- `analyzeCompound` from src/src/services/api.ts: the catch block maps
`ECONNREFUSED`, HTTP 500 (with `error.response.data?.error || 'Server error
during analysis'`), `ECONNABORTED` and any other failure to a
`{ success: false, error }` record, so the promise always resolves. -/
def analyzeCompound (o : PostOutcome) : AnalysisResponse :=
  match o with
  | PostOutcome.ok body => body
  | PostOutcome.connRefused =>
    ⟨false, none, some "Backend server is not running. Please start the Python backend."⟩
  | PostOutcome.httpError status responseError =>
    if status = 500 then
      ⟨false, none, some (jsOrDefault responseError "Server error during analysis")⟩
    else ⟨false, none, some "Failed to analyze compound. Please try again."⟩
  | PostOutcome.aborted =>
    ⟨false, none, some "Analysis timeout - the compound may be too complex to process quickly"⟩
  | PostOutcome.otherError =>
    ⟨false, none, some "Failed to analyze compound. Please try again."⟩

/-- The transport-level failures of `analyzeCompound`: every outcome on which
axios rejects. -/
def isTransportFailure (o : PostOutcome) : Bool :=
  match o with
  | PostOutcome.ok _ => false
  | _ => true

theorem trimList_decomp (s : List Char) :
    ∃ a b, s = a ++ trimList s ++ b ∧ (∀ c ∈ a, isSpaceChar c = true) ∧
      (∀ c ∈ b, isSpaceChar c = true) := by
  refine ⟨s.takeWhile isSpaceChar,
    ((s.dropWhile isSpaceChar).reverse.takeWhile isSpaceChar).reverse, ?_, ?_, ?_⟩
  · conv_lhs => rw [← List.takeWhile_append_dropWhile (p := isSpaceChar) (l := s)]
    rw [List.append_assoc]
    congr 1
    have h2 := List.takeWhile_append_dropWhile (p := isSpaceChar)
      (l := (s.dropWhile isSpaceChar).reverse)
    have h3 := congrArg List.reverse h2
    rw [List.reverse_append, List.reverse_reverse] at h3
    exact h3.symm
  · intro c hc
    exact List.mem_takeWhile_imp hc
  · intro c hc
    rw [List.mem_reverse] at hc
    exact List.mem_takeWhile_imp hc

theorem count_trimList (c : Char) (hc : isSpaceChar c = false) (s : List Char) :
    (trimList s).count c = s.count c := by
  obtain ⟨a, b, hs, ha, hb⟩ := trimList_decomp s
  have hca : a.count c = 0 := by
    rw [List.count_eq_zero]
    intro hmem
    rw [ha c hmem] at hc
    cases hc
  have hcb : b.count c = 0 := by
    rw [List.count_eq_zero]
    intro hmem
    rw [hb c hmem] at hc
    cases hc
  conv_rhs => rw [hs]
  simp [List.count_append, hca, hcb]

theorem mem_trimList (c : Char) (hc : isSpaceChar c = false) (s : List Char) :
    c ∈ trimList s ↔ c ∈ s := by
  obtain ⟨a, b, hs, ha, hb⟩ := trimList_decomp s
  constructor
  · intro h
    rw [hs]
    simp only [List.mem_append]
    exact Or.inl (Or.inr h)
  · intro h
    rw [hs] at h
    simp only [List.mem_append] at h
    rcases h with (h | h) | h
    · rw [ha c h] at hc; cases hc
    · exact h
    · rw [hb c h] at hc; cases hc

theorem trimList_ne_nil_of_count (s : List Char) (c : Char)
    (hc : isSpaceChar c = false) (h : s.count c ≠ 0) : trimList s ≠ [] := by
  intro h0
  apply h
  rw [← count_trimList c hc s, h0]
  rfl

theorem isPrefixOf_append_space (pat : List Char) (hp : ∀ c ∈ pat, isSpaceChar c = false)
    (y b : List Char) (hb : ∀ c ∈ b, isSpaceChar c = true)
    (h : pat.isPrefixOf (y ++ b) = true) : pat.isPrefixOf y = true := by
  induction pat generalizing y with
  | nil => simp [List.isPrefixOf]
  | cons p ps ih =>
    cases y with
    | nil =>
      exfalso
      cases b with
      | nil => simp [List.isPrefixOf] at h
      | cons c b' =>
        simp only [List.nil_append, List.isPrefixOf, Bool.and_eq_true, beq_iff_eq] at h
        have h1 : isSpaceChar p = false := hp p (List.mem_cons_self p ps)
        have h2 : isSpaceChar c = true := hb c (List.mem_cons_self c b')
        rw [h.1, h2] at h1
        cases h1
    | cons c y' =>
      simp only [List.cons_append, List.isPrefixOf, Bool.and_eq_true] at h ⊢
      exact ⟨h.1, ih (fun d hd => hp d (List.mem_cons_of_mem p hd)) y' h.2⟩

theorem hasSubstring_all_space (pat : List Char) (hne : pat ≠ [])
    (hp : ∀ c ∈ pat, isSpaceChar c = false) (b : List Char)
    (hb : ∀ c ∈ b, isSpaceChar c = true) : hasSubstring pat b = false := by
  induction b with
  | nil =>
    cases pat with
    | nil => exact absurd rfl hne
    | cons p ps => rfl
  | cons c b' ih =>
    simp only [hasSubstring, Bool.or_eq_false_iff]
    constructor
    · cases pat with
      | nil => exact absurd rfl hne
      | cons p ps =>
        simp only [List.isPrefixOf, Bool.and_eq_false_iff]
        left
        have h1 : isSpaceChar p = false := hp p (List.mem_cons_self p ps)
        have h2 : isSpaceChar c = true := hb c (List.mem_cons_self c b')
        rw [beq_eq_false_iff_ne]
        intro hpc
        rw [hpc, h2] at h1
        cases h1
    · exact ih fun d hd => hb d (List.mem_cons_of_mem c hd)

theorem hasSubstring_append_space_right (pat : List Char) (hne : pat ≠ [])
    (hp : ∀ c ∈ pat, isSpaceChar c = false) (b : List Char)
    (hb : ∀ c ∈ b, isSpaceChar c = true) (t : List Char)
    (h : hasSubstring pat (t ++ b) = true) : hasSubstring pat t = true := by
  induction t with
  | nil =>
    rw [List.nil_append] at h
    rw [hasSubstring_all_space pat hne hp b hb] at h
    cases h
  | cons c t' ih =>
    simp only [List.cons_append, hasSubstring, Bool.or_eq_true] at h ⊢
    rcases h with h | h
    · left
      have h2 : pat.isPrefixOf ((c :: t') ++ b) = true := by
        rw [List.cons_append]; exact h
      exact isPrefixOf_append_space pat hp (c :: t') b hb h2
    · right
      exact ih h

theorem hasSubstring_append_space_left (pat : List Char) (hne : pat ≠ [])
    (hp : ∀ c ∈ pat, isSpaceChar c = false) (a : List Char)
    (ha : ∀ c ∈ a, isSpaceChar c = true) (x : List Char)
    (h : hasSubstring pat (a ++ x) = true) : hasSubstring pat x = true := by
  induction a with
  | nil => exact h
  | cons c a' ih =>
    simp only [List.cons_append, hasSubstring, Bool.or_eq_true] at h
    rcases h with h | h
    · exfalso
      cases pat with
      | nil => exact hne rfl
      | cons p ps =>
        simp only [List.isPrefixOf, Bool.and_eq_true, beq_iff_eq] at h
        have h1 : isSpaceChar p = false := hp p (List.mem_cons_self p ps)
        have h2 : isSpaceChar c = true := ha c (List.mem_cons_self c a')
        rw [h.1, h2] at h1
        cases h1
    · exact ih (fun d hd => ha d (List.mem_cons_of_mem c hd)) h

theorem hasSubstring_trimList (pat : List Char) (hne : pat ≠ [])
    (hp : ∀ c ∈ pat, isSpaceChar c = false) (s : List Char)
    (h : hasSubstring pat s = true) : hasSubstring pat (trimList s) = true := by
  obtain ⟨a, b, hs, ha, hb⟩ := trimList_decomp s
  rw [hs, List.append_assoc] at h
  have h1 := hasSubstring_append_space_left pat hne hp a ha (trimList s ++ b) h
  exact hasSubstring_append_space_right pat hne hp b hb (trimList s) h1

theorem trimList_ne_nil_of_hasSubstring (pat : List Char) (hne : pat ≠ [])
    (hp : ∀ c ∈ pat, isSpaceChar c = false) (s : List Char)
    (h : hasSubstring pat s = true) : trimList s ≠ [] := by
  intro h0
  have h1 := hasSubstring_trimList pat hne hp s h
  rw [h0] at h1
  cases pat with
  | nil => exact hne rfl
  | cons p ps => cases h1

theorem validateSMILES_of_ne_nil (s : List Char) (h : trimList s ≠ []) :
    validateSMILES s =
      ⟨(mainErrors (trimList s)).isEmpty, mainErrors (trimList s),
        mainWarnings (trimList s), mainSuggestions (trimList s)⟩ := by
  unfold validateSMILES
  rw [if_neg]
  simpa using h

theorem paren_mem_mainErrors (t : List Char) (h : t.count '(' ≠ t.count ')') :
    "Unbalanced parentheses" ∈ mainErrors t := by
  unfold mainErrors
  rw [if_pos h]
  simp

theorem bracket_mem_mainErrors (t : List Char) (h : t.count '[' ≠ t.count ']') :
    "Unbalanced square brackets" ∈ mainErrors t := by
  unfold mainErrors
  rw [if_pos h]
  simp

theorem invalid_mem_mainErrors (t : List Char) (h : t.all validSmilesChar = false) :
    "Contains invalid characters" ∈ mainErrors t := by
  unfold mainErrors
  have h' : ¬ (t.all validSmilesChar = true) := by simp [h]
  rw [if_neg h']
  simp

theorem dots_mem_mainErrors (t : List Char) (h : hasSubstring ['.', '.'] t = true) :
    "Double dots are not valid in SMILES" ∈ mainErrors t := by
  unfold mainErrors
  rw [if_pos h]
  simp

theorem dashes_mem_mainErrors (t : List Char) (h : hasSubstring ['-', '-'] t = true) :
    "Double dashes are not valid in SMILES" ∈ mainErrors t := by
  unfold mainErrors
  rw [if_pos h]
  simp

theorem invalid_not_mem_mainErrors (t : List Char) (h : t.all validSmilesChar = true) :
    "Contains invalid characters" ∉ mainErrors t := by
  intro hmem
  unfold mainErrors at hmem
  rw [h] at hmem
  split_ifs at hmem <;> simp_all

theorem validateSMILES_isValid_false_of_mem (s : List Char) (hne : trimList s ≠ [])
    (e : String) (h : e ∈ mainErrors (trimList s)) :
    (validateSMILES s).isValid = false := by
  rw [validateSMILES_of_ne_nil s hne]
  cases h' : mainErrors (trimList s) with
  | nil => rw [h'] at h; cases h
  | cons x xs => simp [h']

/-- Claim C1: an input whose `(` and `)` counts differ, or whose `[` and `]`
counts differ, fails the client validator with the matching unbalanced
diagnostic, and the engine (modelled from the spec for the structural checks
of §4.2, with the rest of its pipeline abstracted) answers with a failure
response: success false, no data — hence no partial molecular graph — and a
`SyntaxError` naming the imbalance. -/
theorem claim_C1 {α : Type} (pipeline : List Char → Except String α) (s : List Char)
    (h : s.count '(' ≠ s.count ')' ∨ s.count '[' ≠ s.count ']') :
    (validateSMILES s).isValid = false ∧
    ("Unbalanced parentheses" ∈ (validateSMILES s).errors ∨
      "Unbalanced square brackets" ∈ (validateSMILES s).errors) ∧
    (runEngine pipeline s).success = false ∧
    (runEngine pipeline s).data = none ∧
    ((runEngine pipeline s).error = some "SyntaxError: Unbalanced parentheses" ∨
      (runEngine pipeline s).error = some "SyntaxError: Unbalanced square brackets") := by
  have c1 : isSpaceChar '(' = false := by decide
  have c2 : isSpaceChar ')' = false := by decide
  have c3 : isSpaceChar '[' = false := by decide
  have c4 : isSpaceChar ']' = false := by decide
  have hne : trimList s ≠ [] := by
    rcases h with h | h
    · have h0 : s.count '(' ≠ 0 ∨ s.count ')' ≠ 0 := by omega
      rcases h0 with h0 | h0
      · exact trimList_ne_nil_of_count s '(' c1 h0
      · exact trimList_ne_nil_of_count s ')' c2 h0
    · have h0 : s.count '[' ≠ 0 ∨ s.count ']' ≠ 0 := by omega
      rcases h0 with h0 | h0
      · exact trimList_ne_nil_of_count s '[' c3 h0
      · exact trimList_ne_nil_of_count s ']' c4 h0
  have hmem : "Unbalanced parentheses" ∈ mainErrors (trimList s) ∨
      "Unbalanced square brackets" ∈ mainErrors (trimList s) := by
    rcases h with h | h
    · left
      apply paren_mem_mainErrors
      rw [count_trimList '(' c1 s, count_trimList ')' c2 s]
      exact h
    · right
      apply bracket_mem_mainErrors
      rw [count_trimList '[' c3 s, count_trimList ']' c4 s]
      exact h
  refine ⟨?_, ?_, ?_⟩
  · rcases hmem with hm | hm
    · exact validateSMILES_isValid_false_of_mem s hne _ hm
    · exact validateSMILES_isValid_false_of_mem s hne _ hm
  · rw [validateSMILES_of_ne_nil s hne]
    exact hmem
  · by_cases hp : s.count '(' ≠ s.count ')'
    · have hsc : structuralCheck s = some "SyntaxError: Unbalanced parentheses" := by
        unfold structuralCheck
        rw [if_pos hp]
      simp [runEngine, hsc]
    · have hb : s.count '[' ≠ s.count ']' := by tauto
      have hsc : structuralCheck s = some "SyntaxError: Unbalanced square brackets" := by
        unfold structuralCheck
        rw [if_neg hp, if_pos hb]
      simp [runEngine, hsc]

/-- A stand-in for the unknown downstream pipeline, used to instantiate the
engine model at a concrete input. -/
def trivialPipeline : List Char → Except String Unit := fun _ => Except.error ""

theorem claim_C1_witness :
    (("C(((".toList.count '(' ≠ "C(((".toList.count ')' ∨
        "C(((".toList.count '[' ≠ "C(((".toList.count ']')) ∧
    ((validateSMILES "C(((".toList).isValid = false ∧
      ("Unbalanced parentheses" ∈ (validateSMILES "C(((".toList).errors ∨
        "Unbalanced square brackets" ∈ (validateSMILES "C(((".toList).errors) ∧
      (runEngine trivialPipeline "C(((".toList).success = false ∧
      (runEngine trivialPipeline "C(((".toList).data = none ∧
      ((runEngine trivialPipeline "C(((".toList).error =
          some "SyntaxError: Unbalanced parentheses" ∨
        (runEngine trivialPipeline "C(((".toList).error =
          some "SyntaxError: Unbalanced square brackets")) :=
  ⟨by decide, claim_C1 trivialPipeline "C(((".toList (by decide)⟩

/-- Claim C4, counterexample: the input `CCO ` contains a space, which is
outside the accepted SMILES alphabet, yet `validateSMILES` trims the input
before the character-set check, reports no invalid-character error, and
declares the input valid. -/
theorem claim_C4_counterexample :
    (' ' ∈ "CCO ".toList ∧ validSmilesChar ' ' = false) ∧
    (validateSMILES "CCO ".toList).isValid = true ∧
    "Contains invalid characters" ∉ (validateSMILES "CCO ".toList).errors := by
  decide

/-- Claim C4, amended: the character-set check applies to the
whitespace-trimmed input: if the trimmed input contains a character outside
the accepted SMILES alphabet then validation fails with the
`Contains invalid characters` error, and conversely a trimmed input composed
only of accepted characters passes the character-set check. -/
theorem claim_C4 (s : List Char) :
    ((∃ c ∈ trimList s, validSmilesChar c = false) →
      "Contains invalid characters" ∈ (validateSMILES s).errors ∧
        (validateSMILES s).isValid = false) ∧
    ((∀ c ∈ trimList s, validSmilesChar c = true) →
      "Contains invalid characters" ∉ (validateSMILES s).errors) := by
  constructor
  · rintro ⟨c, hc, hcf⟩
    have hne : trimList s ≠ [] := List.ne_nil_of_mem hc
    have hall : (trimList s).all validSmilesChar = false := by
      rw [Bool.eq_false_iff]
      intro hall
      rw [List.all_eq_true] at hall
      rw [hall c hc] at hcf
      cases hcf
    have hmem := invalid_mem_mainErrors (trimList s) hall
    constructor
    · rw [validateSMILES_of_ne_nil s hne]
      exact hmem
    · exact validateSMILES_isValid_false_of_mem s hne _ hmem
  · intro hall
    by_cases hne : trimList s = []
    · unfold validateSMILES
      rw [if_pos]
      · intro hmem
        simp at hmem
      · rw [hne]
        rfl
    · rw [validateSMILES_of_ne_nil s hne]
      exact invalid_not_mem_mainErrors (trimList s) (List.all_eq_true.mpr hall)

theorem claim_C4_witness :
    ((∃ c ∈ trimList "C C1".toList, validSmilesChar c = false) ∧
      ("Contains invalid characters" ∈ (validateSMILES "C C1".toList).errors ∧
        (validateSMILES "C C1".toList).isValid = false)) ∧
    ((∀ c ∈ trimList "CCO".toList, validSmilesChar c = true) ∧
      "Contains invalid characters" ∉ (validateSMILES "CCO".toList).errors) :=
  ⟨⟨by decide, (claim_C4 "C C1".toList).1 (by decide)⟩,
    ⟨by decide, (claim_C4 "CCO".toList).2 (by decide)⟩⟩

/-- Claim C8: `validateSMILES` is valid exactly when its error list is empty;
an empty or whitespace-only input yields exactly the single error
`SMILES string is empty` with no warnings or suggestions; and inputs
containing `..` or `--` are invalid even though `.` and `-` belong to the
accepted SMILES alphabet. -/
theorem claim_C8 (s : List Char) :
    ((validateSMILES s).isValid = true ↔ (validateSMILES s).errors = []) ∧
    (trimList s = [] → validateSMILES s = ⟨false, ["SMILES string is empty"], [], []⟩) ∧
    (hasSubstring ['.', '.'] s = true → (validateSMILES s).isValid = false) ∧
    (hasSubstring ['-', '-'] s = true → (validateSMILES s).isValid = false) ∧
    validSmilesChar '.' = true ∧ validSmilesChar '-' = true := by
  have hdot : ∀ c ∈ ['.', '.'], isSpaceChar c = false := by decide
  have hdash : ∀ c ∈ ['-', '-'], isSpaceChar c = false := by decide
  refine ⟨?_, ?_, ?_, ?_, by decide, by decide⟩
  · by_cases hne : trimList s = []
    · unfold validateSMILES
      rw [if_pos]
      · simp
      · rw [hne]
        rfl
    · rw [validateSMILES_of_ne_nil s hne]
      simp [List.isEmpty_iff]
  · intro h0
    unfold validateSMILES
    rw [if_pos]
    rw [h0]
    rfl
  · intro h
    have hne := trimList_ne_nil_of_hasSubstring ['.', '.'] (by decide) hdot s h
    have ht := hasSubstring_trimList ['.', '.'] (by decide) hdot s h
    exact validateSMILES_isValid_false_of_mem s hne _ (dots_mem_mainErrors _ ht)
  · intro h
    have hne := trimList_ne_nil_of_hasSubstring ['-', '-'] (by decide) hdash s h
    have ht := hasSubstring_trimList ['-', '-'] (by decide) hdash s h
    exact validateSMILES_isValid_false_of_mem s hne _ (dashes_mem_mainErrors _ ht)

theorem claim_C8_witness :
    (trimList "  ".toList = [] ∧
      validateSMILES "  ".toList = ⟨false, ["SMILES string is empty"], [], []⟩) ∧
    (hasSubstring ['.', '.'] "C..C".toList = true ∧
      (validateSMILES "C..C".toList).isValid = false) ∧
    (hasSubstring ['-', '-'] "C--C".toList = true ∧
      (validateSMILES "C--C".toList).isValid = false) :=
  ⟨⟨by decide, (claim_C8 "  ".toList).2.1 (by decide)⟩,
    ⟨by decide, (claim_C8 "C..C".toList).2.2.1 (by decide)⟩,
    ⟨by decide, (claim_C8 "C--C".toList).2.2.2.1 (by decide)⟩⟩

/-- Claim C3, counterexample: for the input ` CCCC` the whitespace-stripped
text satisfies all four conditions of the spec's heuristic, yet
`isSMILESLike` rejects it, because the code tests `!text.includes(' ')` on
the raw text and the leading space is not an embedded space. -/
theorem claim_C3_counterexample :
    isSMILESLikeSpec " CCCC".toList = true ∧ isSMILESLike " CCCC".toList = false := by
  decide

/-- Claim C3, amended: the heuristic applies the alphabet test to the
whitespace-stripped text, but the carbon test, the length test and the
no-space test to the raw text — it rejects any space anywhere, not only
embedded ones; any text failing the heuristic is resolved via the name
lookup table (the table, living in the backend, is abstracted as a
parameter). -/
theorem claim_C3 (lookup : List Char → Option (List Char)) (text : List Char) :
    (isSMILESLike text = true ↔
      (trimList text ≠ [] ∧ (∀ c ∈ trimList text, validSmilesChar c = true) ∧
        'C' ∈ text ∧ text.length > 3 ∧ ' ' ∉ text)) ∧
    (isSMILESLike text = false → resolveInput lookup text = nameResolve lookup text) := by
  constructor
  · unfold isSMILESLike
    simp [List.all_eq_true, and_assoc]
  · intro h
    unfold resolveInput
    rw [if_neg]
    simp [h]

theorem claim_C3_witness :
    (isSMILESLike "benzene".toList = false ∧
      resolveInput (fun _ => none) "benzene".toList =
        nameResolve (fun _ => none) "benzene".toList) :=
  ⟨by decide, (claim_C3 (fun _ => none) "benzene".toList).2 (by decide)⟩

/-- Claim C2: modelled from the spec (the Rule Evaluator runs in the backend,
which is not among the repository sources) — the Lipinski violation count is
the number of the four threshold conditions that hold, and the `drugLikeness`
flag is true exactly when that count is at most 1. -/
theorem claim_C2 (p : MolecularProperties) :
    (evaluateRules p).lipinskiViolations =
      ([decide (p.molecularWeight > 500), decide (p.logP > 5),
        decide (p.hbondDonors > 5), decide (p.hbondAcceptors > 10)].count true) ∧
    ((evaluateRules p).drugLikeness = true ↔
      (evaluateRules p).lipinskiViolations ≤ 1) := by
  constructor
  · simp only [evaluateRules, lipinskiViolations]
    by_cases h1 : p.molecularWeight > 500 <;>
      by_cases h2 : p.logP > 5 <;>
        by_cases h3 : p.hbondDonors > 5 <;>
          by_cases h4 : p.hbondAcceptors > 10 <;>
            simp [h1, h2, h3, h4, List.count_cons]
  · simp [evaluateRules]

/-- Claim C5: modelled from the spec (the ADMET predictor runs in the
backend, which is not among the repository sources) — the blood-brain-barrier
category is `Likely` exactly when MW < 450, polar surface area < 90 and
−0.5 ≤ logP ≤ 4.5, it is `Unlikely` exactly otherwise, and the
categorization is total and two-valued. -/
theorem claim_C5 (p : MolecularProperties) :
    (bloodBrainBarrier p = "Likely" ↔
      (p.molecularWeight < 450 ∧ p.polarSurfaceArea < 90 ∧
        -(1 / 2) ≤ p.logP ∧ p.logP ≤ 9 / 2)) ∧
    (bloodBrainBarrier p = "Unlikely" ↔
      ¬ (p.molecularWeight < 450 ∧ p.polarSurfaceArea < 90 ∧
        -(1 / 2) ≤ p.logP ∧ p.logP ≤ 9 / 2)) ∧
    (bloodBrainBarrier p = "Likely" ∨ bloodBrainBarrier p = "Unlikely") := by
  have hne : ("Likely" : String) ≠ "Unlikely" := by decide
  unfold bloodBrainBarrier
  split_ifs with h
  · exact ⟨iff_of_true rfl h, iff_of_false hne fun hn => hn h, Or.inl rfl⟩
  · exact ⟨iff_of_false (Ne.symm hne) h, iff_of_true rfl h, Or.inr rfl⟩

/-- Claim C6: modelled from the spec (the Conformer Generator and the
Assembler run in the backend, which is not among the repository sources) —
when both conformer attempts fail, the generator raises
`ConformerGenerationError`, yet the assembled response still has success
true, carries the full pre-conformer record (properties, drug-likeness,
ADMET), and its `structure3D` field is the empty string; no error is
surfaced. -/
theorem claim_C6 (core : AnalysisCore) (attempt : ℕ → Option String)
    (h0 : attempt 0 = none) (h1 : attempt 1 = none) :
    generateConformer attempt = Except.error "ConformerGenerationError" ∧
    (assembleAnalysis core (generateConformer attempt)).success = true ∧
    (assembleAnalysis core (generateConformer attempt)).data =
      some ⟨core.smiles, core.name, core.formula, core.properties,
        core.drugLikeness, core.admet, ""⟩ ∧
    (assembleAnalysis core (generateConformer attempt)).error = none := by
  have hg : generateConformer attempt = Except.error "ConformerGenerationError" := by
    unfold generateConformer
    rw [h0, h1]
  exact ⟨hg, by rw [hg]; rfl, by rw [hg]; rfl, by rw [hg]; rfl⟩

/-- A concrete pre-conformer record used to instantiate the assembler model. -/
def sampleCore : AnalysisCore :=
  ⟨"CCO", "ethanol", "C2H6O", ⟨46, 0, 1, 1, 0, 20, 3, 0, 0, 1⟩,
    ⟨0, 0, true, true⟩, ⟨"Likely", "High", [], "Low"⟩⟩

/-- A conformer generator whose two attempts both fail. -/
def failingAttempt : ℕ → Option String := fun _ => none

theorem claim_C6_witness :
    (failingAttempt 0 = none ∧ failingAttempt 1 = none) ∧
    (generateConformer failingAttempt = Except.error "ConformerGenerationError" ∧
      (assembleAnalysis sampleCore (generateConformer failingAttempt)).success = true ∧
      (assembleAnalysis sampleCore (generateConformer failingAttempt)).data =
        some ⟨sampleCore.smiles, sampleCore.name, sampleCore.formula,
          sampleCore.properties, sampleCore.drugLikeness, sampleCore.admet, ""⟩ ∧
      (assembleAnalysis sampleCore (generateConformer failingAttempt)).error = none) :=
  ⟨⟨rfl, rfl⟩, claim_C6 sampleCore failingAttempt rfl rfl⟩

/-- Claim C7: `healthCheck` evaluates to true exactly when the health
endpoint responds with HTTP status 200, and to false in every other case,
timeouts and connection errors included; as a total boolean function of the
request outcome it neither throws nor returns any other payload. -/
theorem claim_C7 (o : HealthOutcome) :
    (healthCheck o = true ↔ o = HealthOutcome.responded 200) ∧
    (healthCheck o = false ↔ o ≠ HealthOutcome.responded 200) := by
  have key : healthCheck o = true ↔ o = HealthOutcome.responded 200 := by
    cases o with
    | responded status =>
      by_cases h : 200 ≤ status ∧ status < 300
      · have hc : healthCheck (HealthOutcome.responded status) = (status == 200) := by
          simp [healthCheck, h]
        rw [hc]
        simp
      · have hc : healthCheck (HealthOutcome.responded status) = false := by
          simp [healthCheck, h]
        rw [hc]
        constructor
        · intro hfalse
          cases hfalse
        · intro heq
          rw [HealthOutcome.responded.injEq] at heq
          omega
    | timeout =>
      simp [healthCheck]
    | connectionError =>
      simp [healthCheck]
  refine ⟨key, ?_, ?_⟩
  · intro hf heq
    have ht := key.mpr heq
    rw [ht] at hf
    cases hf
  · intro hne2
    cases hcheck : healthCheck o with
    | false => rfl
    | true => exact absurd (key.mp hcheck) hne2

/-- The empty string is never produced by the JavaScript `x || default`
fallback when the default itself is non-empty. -/
theorem jsOrDefault_ne_empty (x : Option String) (d : String) (hd : d ≠ "") :
    jsOrDefault x d ≠ "" := by
  cases x with
  | none => exact hd
  | some s =>
    show (if s = "" then d else s) ≠ ""
    split_ifs with h
    · exact hd
    · exact h

/-- Claim C9: `analyzeCompound` always resolves — every transport-level
failure (refused connection, HTTP error status including 500, timeout, or
any other error) is caught and mapped to a `success: false` response carrying
a non-empty human-readable error string; no exception propagates. -/
theorem claim_C9 (o : PostOutcome) (h : isTransportFailure o = true) :
    (analyzeCompound o).success = false ∧
    ∃ e, (analyzeCompound o).error = some e ∧ e ≠ "" := by
  cases o with
  | ok body =>
    simp [isTransportFailure] at h
  | connRefused =>
    exact ⟨rfl, ⟨_, rfl, by decide⟩⟩
  | httpError status responseError =>
    by_cases hs : status = 500
    · have hv : analyzeCompound (PostOutcome.httpError status responseError) =
          ⟨false, none, some (jsOrDefault responseError "Server error during analysis")⟩ := by
        simp only [analyzeCompound, if_pos hs]
      rw [hv]
      exact ⟨rfl, ⟨_, rfl,
        jsOrDefault_ne_empty responseError "Server error during analysis" (by decide)⟩⟩
    · have hv : analyzeCompound (PostOutcome.httpError status responseError) =
          ⟨false, none, some "Failed to analyze compound. Please try again."⟩ := by
        simp only [analyzeCompound, if_neg hs]
      rw [hv]
      exact ⟨rfl, ⟨_, rfl, by decide⟩⟩
  | aborted =>
    exact ⟨rfl, ⟨_, rfl, by decide⟩⟩
  | otherError =>
    exact ⟨rfl, ⟨_, rfl, by decide⟩⟩

theorem claim_C9_witness :
    isTransportFailure PostOutcome.connRefused = true ∧
    ((analyzeCompound PostOutcome.connRefused).success = false ∧
      ∃ e, (analyzeCompound PostOutcome.connRefused).error = some e ∧ e ≠ "") :=
  ⟨rfl, claim_C9 PostOutcome.connRefused rfl⟩

/-- A subscript digit produced by `subscriptDigit` is never itself matched by
the `\d` class, which is what makes the formatter idempotent. -/
theorem subscriptDigit_not_digit (c : Char) (h : isFormulaDigit c = true) :
    isFormulaDigit (subscriptDigit c) = false := by
  have h' : c ∈ ['0', '1', '2', '3', '4', '5', '6', '7', '8', '9'] := by
    simpa [isFormulaDigit] using h
  fin_cases h' <;> decide

/-- Claim C10: `formatMolecularFormula` maps every ASCII digit to the
corresponding Unicode subscript digit and leaves every non-digit character
unchanged — it acts characterwise — and, because subscript digits are not
matched as digits, it is idempotent. -/
theorem claim_C10 (s : List Char) :
    formatMolecularFormula s =
      s.map (fun c => if isFormulaDigit c then subscriptDigit c else c) ∧
    formatMolecularFormula (formatMolecularFormula s) = formatMolecularFormula s := by
  constructor
  · induction s with
    | nil => rfl
    | cons c rest ih =>
      unfold formatMolecularFormula
      split_ifs with h <;> simp [ih, h]
  · induction s with
    | nil => rfl
    | cons c rest ih =>
      by_cases h : isFormulaDigit c = true
      · have h2 := subscriptDigit_not_digit c h
        have step1 : formatMolecularFormula (c :: rest) =
            subscriptDigit c :: formatMolecularFormula rest := by
          simp [formatMolecularFormula, h]
        have step2 : formatMolecularFormula
              (subscriptDigit c :: formatMolecularFormula rest) =
            subscriptDigit c :: formatMolecularFormula (formatMolecularFormula rest) := by
          simp [formatMolecularFormula, h2]
        rw [step1, step2, ih]
      · have h' : isFormulaDigit c = false := by
          cases hv : isFormulaDigit c
          · rfl
          · exact absurd hv h
        have step1 : formatMolecularFormula (c :: rest) =
            c :: formatMolecularFormula rest := by
          simp [formatMolecularFormula, h']
        have step2 : formatMolecularFormula (c :: formatMolecularFormula rest) =
            c :: formatMolecularFormula (formatMolecularFormula rest) := by
          simp [formatMolecularFormula, h']
        rw [step1, step2, ih]

